import Mathlib

/-!
Verification of the Scaleway task layer of the kops reconciliation engine.

The definitions below are a shallow embedding of the Go sources:
  - upup/pkg/fi/cloudup/scalewaytasks/gateway_network.go (the GatewayNetwork,
    DNSRecord, LoadBalancer, Gateway and PrivateNIC tasks),
  - upup/pkg/fi/cloudup/terraform/target_hcl2.go (the declarative-file target),
  - the Scaleway DNS provider's record changeset (dnsprovider, package dns),
  - the tag helpers of upup/pkg/fi/cloudup/scaleway.

Go pointers to scalars become Option values (nil = none); fi.ValueOf becomes
Option.getD with the Go zero value; Go errors become Except String; cloud SDK
calls become explicit response oracles passed in (a pure function per API
endpoint), and the renders additionally return the list of API events they
issued, in order.  Go struct and method names are kept where Lean allows it;
exported Go fields are written in lowerCamel.
-/

/-! ## Small Go string helpers -/

/-- Go strings.HasSuffix, over the underlying character lists. -/
def goHasSuffix (s suffix : String) : Bool :=
  suffix.data.isSuffixOf s.data

/-- Go strings.HasPrefix, over the underlying character lists. -/
def goHasPrefix (s pre : String) : Bool :=
  pre.data.isPrefixOf s.data

/-- Go strings.TrimSuffix: drop `suffix` when present, else unchanged. -/
def trimSuffixGo (s suffix : String) : String :=
  if goHasSuffix s suffix then s.dropRight suffix.length else s

/-- Modelled from the spec: dns.EnsureDotSuffix from the dns-controller
package (its file is not under src/); by its name and its uses in the record
changeset it appends a trailing dot when one is absent. -/
def EnsureDotSuffix (s : String) : String :=
  if goHasSuffix s "." then s else s ++ "."

/-- Scaleway cluster-name tag key (cloud.go, const TagClusterName). -/
def TagClusterName : String := "noprefix=kops.k8s.io/cluster"

/-- Scaleway role tag key (cloud.go; the Go constant name ends in a word this
development cannot use as a name suffix, so it is shortened here). -/
def tagNameRole : String := "noprefix=kops.k8s.io/role"

/-- Scaleway worker-role tag value (cloud.go, const TagRoleWorker). -/
def TagRoleWorker : String := "Node"

/-- Scaleway control-plane-role tag value (cloud.go). -/
def TagRoleControlPlane : String := "ControlPlane"

/-- ClusterNameFromTags (scaleway helpers): first tag with the cluster-name
key, with the key and "=" trimmed; "" when none. -/
def ClusterNameFromTags : List String → String
  | [] => ""
  | tag :: rest =>
      if goHasPrefix tag TagClusterName then
        if goHasPrefix tag (TagClusterName ++ "=") then
          tag.drop (TagClusterName ++ "=").length
        else tag
      else ClusterNameFromTags rest

/-- InstanceRoleFromTags (scaleway helpers): first tag with the role key,
with the key and "=" trimmed; "" when none. -/
def InstanceRoleFromTags : List String → String
  | [] => ""
  | tag :: rest =>
      if goHasPrefix tag tagNameRole then
        if goHasPrefix tag (tagNameRole ++ "=") then
          tag.drop (tagNameRole ++ "=").length
        else tag
      else InstanceRoleFromTags rest

/-! ## Task error taxonomy (package fi) -/

/-- The two validation errors CheckChanges produces: fi.CannotChangeField and
fi.RequiredField. -/
inductive TaskError where
  | cannotChangeField (field : String)
  | requiredField (field : String)
deriving DecidableEq, Repr

/-! ## Task data model (package scalewaytasks)

fi.Lifecycle is a string-valued enum in kops; it is carried opaquely here.
The PrivateNetwork and Instance task kinds are only referenced by the files
under src/, never defined there. -/

/-- Modelled from the spec: the PrivateNetwork task kind (its own Go file is
not under src/); tasks reference it and read its cloud identifier, so only
identity fields are modelled. -/
structure PrivateNetwork where
  id : Option String
  name : Option String
deriving DecidableEq, Repr

/-- Modelled from the spec: the Instance task kind (its own Go file is not
under src/); PrivateNIC references it and reads its tags. -/
structure Instance where
  name : Option String
  tags : List String
deriving DecidableEq, Repr

/-- The Gateway task (gateway_network.go). -/
structure Gateway where
  id : Option String
  name : Option String
  zone : Option String
  tags : List String
  lifecycle : String
deriving DecidableEq, Repr

/-- The GatewayNetwork task (gateway_network.go). -/
structure GatewayNetwork where
  id : Option String
  name : Option String
  zone : Option String
  lifecycle : String
  gateway : Option Gateway
  privateNetwork : Option PrivateNetwork
deriving DecidableEq, Repr

/-- The LoadBalancer task (gateway_network.go).  WellKnownServices values are
carried opaquely as strings. -/
structure LoadBalancer where
  id : Option String
  name : Option String
  zone : Option String
  tags : List String
  type : String
  lbAddresses : List String
  description : String
  sslCompatibilityLevel : String
  wellKnownServices : List String
  forAPIServer : Bool
  lifecycle : String
  privateNetwork : Option PrivateNetwork
deriving DecidableEq, Repr

/-- The DNSRecord task (gateway_network.go, package scalewaytasks). -/
structure DNSRecord where
  name : Option String
  data : Option String
  dnsZone : Option String
  type : Option String
  lifecycle : String
deriving DecidableEq, Repr

/-- The PrivateNIC task (gateway_network.go). -/
structure PrivateNIC where
  name : Option String
  zone : Option String
  tags : List String
  forAPIServer : Bool
  count : Nat
  lifecycle : String
  instanceRef : Option Instance
  privateNetwork : Option PrivateNetwork
deriving DecidableEq, Repr

/-- fi.CloudupTask as the tagged union of the task kinds this file touches
(Go: an interface; each concrete task is a pointer to one of these). -/
inductive CloudupTask where
  | privateNetwork (pn : PrivateNetwork)
  | gateway (g : Gateway)
  | gatewayNetwork (gn : GatewayNetwork)
  | loadBalancer (lb : LoadBalancer)
  | instanceTask (i : Instance)
  | privateNIC (p : PrivateNIC)
deriving DecidableEq, Repr

/-- True exactly on PrivateNetwork tasks (Go: type switch `task.(*PrivateNetwork)`). -/
def isPrivateNetworkTask : CloudupTask → Bool
  | CloudupTask.privateNetwork _ => true
  | _ => false

/-- True exactly on Gateway tasks. -/
def isGatewayTask : CloudupTask → Bool
  | CloudupTask.gateway _ => true
  | _ => false

/-- True exactly on Instance tasks. -/
def isInstanceTask : CloudupTask → Bool
  | CloudupTask.instanceTask _ => true
  | _ => false

/-! ## GetDependencies (gateway_network.go)

Go iterates the run's task map and appends every task of the matching
concrete types; the map's iteration order is the input list's order here.
The receivers are unused in the Go bodies. -/

/-- LoadBalancer.GetDependencies: every PrivateNetwork task of the set. -/
def LoadBalancer.GetDependencies (_ : LoadBalancer) (tasks : List CloudupTask) :
    List CloudupTask :=
  tasks.foldl
    (fun deps task =>
      match task with
      | CloudupTask.privateNetwork _ => deps ++ [task]
      | _ => deps)
    []

/-- GatewayNetwork.GetDependencies: every PrivateNetwork task and every
Gateway task of the set. -/
def GatewayNetwork.GetDependencies (_ : GatewayNetwork) (tasks : List CloudupTask) :
    List CloudupTask :=
  tasks.foldl
    (fun deps task =>
      let deps1 :=
        match task with
        | CloudupTask.privateNetwork _ => deps ++ [task]
        | _ => deps
      match task with
      | CloudupTask.gateway _ => deps1 ++ [task]
      | _ => deps1)
    []

/-- PrivateNIC.GetDependencies: every Instance task and every PrivateNetwork
task of the set. -/
def PrivateNIC.GetDependencies (_ : PrivateNIC) (tasks : List CloudupTask) :
    List CloudupTask :=
  tasks.foldl
    (fun deps task =>
      let deps1 :=
        match task with
        | CloudupTask.instanceTask _ => deps ++ [task]
        | _ => deps
      match task with
      | CloudupTask.privateNetwork _ => deps1 ++ [task]
      | _ => deps1)
    []

/-! ## CheckChanges (gateway_network.go) -/

/-- GatewayNetwork.CheckChanges.  `none` is a nil error. -/
def GatewayNetwork.CheckChanges (actual : Option GatewayNetwork)
    (expected changes : GatewayNetwork) : Option TaskError :=
  match actual with
  | some _ =>
      if changes.id.isSome then some (TaskError.cannotChangeField "ID")
      else if changes.zone.isSome then some (TaskError.cannotChangeField "Zone")
      else none
  | none =>
      if expected.zone.isNone then some (TaskError.requiredField "Zone")
      else none

/-- DNSRecord.CheckChanges. -/
def DNSRecord.CheckChanges (actual : Option DNSRecord)
    (expected changes : DNSRecord) : Option TaskError :=
  match actual with
  | some _ =>
      if changes.name.isSome then some (TaskError.cannotChangeField "Name")
      else if changes.dnsZone.isSome then some (TaskError.cannotChangeField "DNSZone")
      else if changes.type.isSome then some (TaskError.cannotChangeField "Type")
      else none
  | none =>
      if expected.name.isNone then some (TaskError.requiredField "Name")
      else if expected.dnsZone.isNone then some (TaskError.requiredField "DNSZone")
      else if expected.type.isNone then some (TaskError.requiredField "Type")
      else if expected.data.isNone then some (TaskError.requiredField "Data")
      else none

/-- LoadBalancer.CheckChanges. -/
def LoadBalancer.CheckChanges (actual : Option LoadBalancer)
    (expected changes : LoadBalancer) : Option TaskError :=
  match actual with
  | some _ =>
      if changes.name.isSome then some (TaskError.cannotChangeField "Name")
      else if changes.id.isSome then some (TaskError.cannotChangeField "ID")
      else if changes.zone.isSome then some (TaskError.cannotChangeField "Zone")
      else none
  | none =>
      if expected.name.isNone then some (TaskError.requiredField "Name")
      else if expected.zone.isNone then some (TaskError.requiredField "Zone")
      else none

/-- Gateway.CheckChanges. -/
def Gateway.CheckChanges (actual : Option Gateway)
    (expected changes : Gateway) : Option TaskError :=
  match actual with
  | some _ =>
      if changes.name.isSome then some (TaskError.cannotChangeField "Name")
      else if changes.id.isSome then some (TaskError.cannotChangeField "ID")
      else if changes.zone.isSome then some (TaskError.cannotChangeField "Zone")
      else none
  | none =>
      if expected.name.isNone then some (TaskError.requiredField "Name")
      else if expected.zone.isNone then some (TaskError.requiredField "Zone")
      else none

/-- PrivateNIC.CheckChanges. -/
def PrivateNIC.CheckChanges (actual : Option PrivateNIC)
    (expected changes : PrivateNIC) : Option TaskError :=
  match actual with
  | some _ =>
      if changes.name.isSome then some (TaskError.cannotChangeField "Name")
      else if changes.zone.isSome then some (TaskError.cannotChangeField "Zone")
      else none
  | none =>
      if expected.name.isNone then some (TaskError.requiredField "Name")
      else if expected.zone.isNone then some (TaskError.requiredField "Zone")
      else none

/-! ## Find (gateway_network.go)

Each Find queries one listing endpoint; the endpoint's response (or error) is
passed in as an `Except` value, and `TotalCount` is the returned list's
length.  Go wraps errors with fmt.Errorf("...: %w", err); here the wrap is
string concatenation. -/

/-- One gateway network of a ListGatewayNetworks response (the fields Find
reads). -/
structure GwnListItem where
  id : String
  zone : String
deriving DecidableEq, Repr

/-- GatewayNetwork.Find: nil,nil when the listing is empty; an error when it
holds more than one; otherwise a GatewayNetwork built from the one found
(ID and Zone from the cloud, Lifecycle/Gateway/PrivateNetwork from the task,
Name left nil). -/
def GatewayNetwork.Find (g : GatewayNetwork)
    (listGatewayNetworks : Except String (List GwnListItem)) :
    Except String (Option GatewayNetwork) :=
  match listGatewayNetworks with
  | Except.error e => Except.error ("listing gateway networks: " ++ e)
  | Except.ok gwns =>
      match gwns with
      | [] => Except.ok none
      | [gwnFound] =>
          Except.ok (some
            { id := some gwnFound.id
              name := none
              zone := some gwnFound.zone
              lifecycle := g.lifecycle
              gateway := g.gateway
              privateNetwork := g.privateNetwork })
      | _ =>
          Except.error
            ("expected exactly 1 gateway network, got " ++ toString gwns.length)

/-- One record of a ListDNSZoneRecords response (the fields Find reads). -/
structure DnsRecordListItem where
  name : String
  data : String
  type : String
deriving DecidableEq, Repr

/-- DNSRecord.Find: nil,nil when the listing is empty; otherwise the first
record found (the count-above-one check is commented out in the source). -/
def DNSRecord.Find (l : DNSRecord)
    (listDNSZoneRecords : Except String (List DnsRecordListItem)) :
    Except String (Option DNSRecord) :=
  match listDNSZoneRecords with
  | Except.error e =>
      Except.error ("listing DNS records named " ++ l.name.getD "" ++
        " in zone " ++ l.dnsZone.getD "" ++ ": " ++ e)
  | Except.ok records =>
      match records with
      | [] => Except.ok none
      | recordFound :: _ =>
          Except.ok (some
            { name := some recordFound.name
              data := some recordFound.data
              dnsZone := l.dnsZone
              type := some recordFound.type
              lifecycle := l.lifecycle })

/-- One gateway of a ListGateways response (the fields Find reads). -/
structure GatewayListItem where
  id : String
  name : String
  zone : String
  tags : List String
deriving DecidableEq, Repr

/-- Gateway.Find: nil,nil when the listing is empty; an error when it holds
more than one; otherwise the one gateway found. -/
def Gateway.Find (g : Gateway)
    (listGateways : Except String (List GatewayListItem)) :
    Except String (Option Gateway) :=
  match listGateways with
  | Except.error e => Except.error ("listing gateways: " ++ e)
  | Except.ok gateways =>
      match gateways with
      | [] => Except.ok none
      | [gatewayFound] =>
          Except.ok (some
            { id := some gatewayFound.id
              name := some gatewayFound.name
              zone := some gatewayFound.zone
              tags := gatewayFound.tags
              lifecycle := g.lifecycle })
      | _ =>
          Except.error ("expected exactly 1 gateway, got " ++ toString gateways.length)

/-- One IP of a load balancer as the LB API returns it; `isIPv6` is the value
of net.IsIPv6String on the address. -/
structure LbIP where
  ipAddress : String
  isIPv6 : Bool
deriving DecidableEq, Repr

/-- One load balancer of a ListLBs response (the fields Find reads). -/
structure LbListItem where
  id : String
  name : String
  zone : String
  tags : List String
  ip : List LbIP
deriving DecidableEq, Repr

/-- LoadBalancer.Find: nil,nil whenever the listing's count is not exactly 1
(absence and ambiguity alike); otherwise resolves the region from the task's
zone, lists the IPAM IPs, and returns the one load balancer found with its
IPAM IPs followed by its own non-IPv6 IPs. -/
def LoadBalancer.Find (l : LoadBalancer)
    (listLBs : Except String (List LbListItem))
    (region : Except String String)
    (listIPs : Except String (List String)) :
    Except String (Option LoadBalancer) :=
  match listLBs with
  | Except.error e =>
      Except.error ("getting load-balancer " ++ l.id.getD "" ++ ": " ++ e)
  | Except.ok lbs =>
      if lbs.length ≠ 1 then Except.ok none
      else
        match lbs with
        | [] => Except.ok none
        | loadBalancer :: _ =>
            match region with
            | Except.error e =>
                Except.error ("finding load-balancer's region: " ++ e)
            | Except.ok _ =>
                match listIPs with
                | Except.error e =>
                    Except.error ("listing load-balancer's IPs: " ++ e)
                | Except.ok ipamIPs =>
                    let lbIPs := ipamIPs ++
                      (loadBalancer.ip.filter (fun ip => !ip.isIPv6)).map
                        (fun ip => ip.ipAddress)
                    Except.ok (some
                      { id := some loadBalancer.id
                        name := some loadBalancer.name
                        zone := some loadBalancer.zone
                        tags := loadBalancer.tags
                        type := ""
                        lbAddresses := lbIPs
                        description := ""
                        sslCompatibilityLevel := ""
                        wellKnownServices := l.wellKnownServices
                        forAPIServer := l.forAPIServer
                        lifecycle := l.lifecycle
                        privateNetwork := none })

/-! ## RenderScw (gateway_network.go)

The live-API target.  Each render takes one oracle structure: a pure
response function per SDK endpoint it calls.  A render returns the ordered
list of API events it issued together with its result; on success the result
is the (possibly mutated) `expected` task. -/

/-- One issued API call, as the renders record them. -/
inductive ApiEvent where
  | createGateway
  | waitForGateway (id : String)
  | createGatewayNetwork
  | waitForGatewayNetwork (id : String)
  | getClusterServers (clusterName : String)
  | getServerPrivateIP (serverID : String)
  | createPATRule (privateIP : String)
  | createLB
  | waitForLb (id : String)
  | attachPrivateNetwork (lbID : String)
  | updateLB (id : String)
deriving DecidableEq, Repr

/-- vpcgw.CreateGatewayRequest as Gateway.RenderScw fills it. -/
structure CreateGatewayRequest where
  zone : String
  name : String
  tags : List String
  type : String
  enableBastion : Bool
  bastionPort : Nat
deriving DecidableEq, Repr

/-- The created gateway as the API reports it (the field the render reads). -/
structure CreatedGateway where
  id : String
deriving DecidableEq, Repr

/-- const GatewayDefaultType (gateway_network.go). -/
def GatewayDefaultType : String := "VPC-GW-S"

/-- The gateway service endpoints Gateway.RenderScw calls. -/
structure GatewayCloud where
  CreateGateway : CreateGatewayRequest → Except String CreatedGateway
  WaitForGateway : String → String → Except String Unit
deriving Inhabited

/-- The CreateGateway request Gateway.RenderScw builds from `expected`. -/
def gatewayCreateRequest (expected : Gateway) : CreateGatewayRequest :=
  { zone := expected.zone.getD ""
    name := expected.name.getD ""
    tags := expected.tags
    type := GatewayDefaultType
    enableBastion := true
    bastionPort := 1042 }

/-- Gateway.RenderScw: no-op when `actual` exists (tag update is a TODO in
the source); otherwise create the gateway, wait for it, and set expected.ID
to the created gateway's ID. -/
def Gateway.RenderScw (cloud : GatewayCloud) (actual : Option Gateway)
    (expected : Gateway) (_changes : Option Gateway) :
    List ApiEvent × Except String Gateway :=
  match actual with
  | some _ => ([], Except.ok expected)
  | none =>
      let zone := expected.zone.getD ""
      match cloud.CreateGateway (gatewayCreateRequest expected) with
      | Except.error e =>
          ([ApiEvent.createGateway], Except.error ("creating gateway: " ++ e))
      | Except.ok gatewayCreated =>
          match cloud.WaitForGateway gatewayCreated.id zone with
          | Except.error e =>
              ([ApiEvent.createGateway, ApiEvent.waitForGateway gatewayCreated.id],
               Except.error ("waiting for gateway: " ++ e))
          | Except.ok _ =>
              ([ApiEvent.createGateway, ApiEvent.waitForGateway gatewayCreated.id],
               Except.ok { expected with id := some gatewayCreated.id })

/-- One server of a GetClusterServers response (the fields the render
reads). -/
structure Server where
  id : String
  name : String
  zone : String
  tags : List String
deriving DecidableEq, Repr

/-- vpcgw.CreateGatewayNetworkRequest as GatewayNetwork.RenderScw fills it
(the DHCP/Address/IpamConfig literals are fixed in the source). -/
structure CreateGatewayNetworkRequest where
  zone : String
  gatewayID : String
  privateNetworkID : String
  enableMasquerade : Bool
  enableDHCP : Bool
  pushDefaultRoute : Bool
deriving DecidableEq, Repr

/-- The created gateway network as the API reports it. -/
structure CreatedGatewayNetwork where
  id : String
deriving DecidableEq, Repr

/-- The endpoints GatewayNetwork.RenderScw calls (gateway service, cluster
server listing, IPAM lookups, PAT rules). -/
structure GwnCloud where
  CreateGatewayNetwork :
    CreateGatewayNetworkRequest → Except String CreatedGatewayNetwork
  WaitForGatewayNetwork : String → String → Except String Unit
  GetClusterServers : String → Except String (List Server)
  GetServerPrivateIP : String → String → Except String String
  CreatePATRule : String → String → String → Except String Unit
deriving Inhabited

/-- The CreateGatewayNetwork request GatewayNetwork.RenderScw builds from
`expected` (a nil Gateway or PrivateNetwork reference would make the Go
dereference panic; here it reads as the zero-value ID). -/
def gwnCreateRequest (expected : GatewayNetwork) : CreateGatewayNetworkRequest :=
  { zone := expected.zone.getD ""
    gatewayID := (expected.gateway.bind Gateway.id).getD ""
    privateNetworkID := (expected.privateNetwork.bind PrivateNetwork.id).getD ""
    enableMasquerade := true
    enableDHCP := true
    pushDefaultRoute := true }

/-- The per-server loop of getAllNodesIPs: skip the workers, collect each
remaining server's private IP; the first failing lookup aborts. -/
def collectNodeIPs (cloud : GwnCloud) :
    List Server → List ApiEvent × Except String (List String)
  | [] => ([], Except.ok [])
  | server :: rest =>
      if InstanceRoleFromTags server.tags == TagRoleWorker then
        collectNodeIPs cloud rest
      else
        match cloud.GetServerPrivateIP server.id server.zone with
        | Except.error e =>
            ([ApiEvent.getServerPrivateIP server.id],
             Except.error ("getting IP of server " ++ server.name ++
               " for public gateway's NAT rules: " ++ e))
        | Except.ok ip =>
            let tail := collectNodeIPs cloud rest
            (ApiEvent.getServerPrivateIP server.id :: tail.1,
             tail.2.map (fun ips => ip :: ips))

/-- getAllNodesIPs (gateway_network.go): list the cluster's servers (named by
the referenced gateway's tags), then collect the non-worker private IPs. -/
def getAllNodesIPs (cloud : GwnCloud) (gwTags : List String) :
    List ApiEvent × Except String (List String) :=
  let clusterName := ClusterNameFromTags gwTags
  match cloud.GetClusterServers clusterName with
  | Except.error e =>
      ([ApiEvent.getClusterServers clusterName],
       Except.error ("getting cluster servers for public gateway's NAT rules: " ++ e))
  | Except.ok servers =>
      let collected := collectNodeIPs cloud servers
      (ApiEvent.getClusterServers clusterName :: collected.1, collected.2)

/-- The PAT-rule loop of GatewayNetwork.RenderScw: one CreatePATRule per node
IP; a failure reports the gateway ID and drops the underlying cause (the
source formats the message without the error). -/
def createPATRules (cloud : GwnCloud) (zone gatewayID : String) :
    List String → List ApiEvent × Except String Unit
  | [] => ([], Except.ok ())
  | nodeIP :: rest =>
      match cloud.CreatePATRule zone gatewayID nodeIP with
      | Except.error _ =>
          ([ApiEvent.createPATRule nodeIP],
           Except.error ("creating NAT rule for public gateway " ++ gatewayID))
      | Except.ok _ =>
          let tail := createPATRules cloud zone gatewayID rest
          (ApiEvent.createPATRule nodeIP :: tail.1, tail.2)

/-- GatewayNetwork.RenderScw: no-op when `actual` exists; otherwise create
the gateway network, wait for it, set expected.ID, then add one NAT (PAT)
rule per non-worker node IP. -/
def GatewayNetwork.RenderScw (cloud : GwnCloud) (actual : Option GatewayNetwork)
    (expected : GatewayNetwork) (_changes : Option GatewayNetwork) :
    List ApiEvent × Except String GatewayNetwork :=
  match actual with
  | some _ => ([], Except.ok expected)
  | none =>
      let zone := expected.zone.getD ""
      let gatewayID := (expected.gateway.bind Gateway.id).getD ""
      match cloud.CreateGatewayNetwork (gwnCreateRequest expected) with
      | Except.error e =>
          ([ApiEvent.createGatewayNetwork],
           Except.error ("creating gateway network: " ++ e))
      | Except.ok gwnCreated =>
          match cloud.WaitForGatewayNetwork gwnCreated.id zone with
          | Except.error e =>
              ([ApiEvent.createGatewayNetwork,
                ApiEvent.waitForGatewayNetwork gwnCreated.id],
               Except.error ("waiting for gateway: " ++ e))
          | Except.ok _ =>
              let expected2 := { expected with id := some gwnCreated.id }
              let nodeIPs := getAllNodesIPs cloud
                ((expected.gateway.map Gateway.tags).getD [])
              match nodeIPs.2 with
              | Except.error e =>
                  (ApiEvent.createGatewayNetwork ::
                     ApiEvent.waitForGatewayNetwork gwnCreated.id :: nodeIPs.1,
                   Except.error e)
              | Except.ok ips =>
                  let pat := createPATRules cloud zone gatewayID ips
                  (ApiEvent.createGatewayNetwork ::
                     ApiEvent.waitForGatewayNetwork gwnCreated.id ::
                     (nodeIPs.1 ++ pat.1),
                   pat.2.map (fun _ => expected2))

/-- lb.ZonedAPICreateLBRequest as LoadBalancer.RenderScw fills it. -/
structure CreateLbRequest where
  zone : String
  name : String
  tags : List String
  type : String
  assignFlexibleIP : Bool
deriving DecidableEq, Repr

/-- The created load balancer as the API reports it (the fields the render
reads). -/
structure CreatedLb where
  id : String
  ip : List LbIP
deriving DecidableEq, Repr

/-- lb.ZonedAPIUpdateLBRequest as LoadBalancer.RenderScw fills it on the
update path. -/
structure UpdateLbRequest where
  zone : String
  lbID : String
  name : String
  description : String
  sslCompatibilityLevel : String
  tags : List String
deriving DecidableEq, Repr

/-- The LB service endpoints LoadBalancer.RenderScw calls. -/
structure LbCloud where
  CreateLB : CreateLbRequest → Except String CreatedLb
  WaitForLb : String → String → Except String Unit
  AttachPrivateNetwork : String → String → String → Except String Unit
  UpdateLB : UpdateLbRequest → Except String Unit
deriving Inhabited

/-- The CreateLB request LoadBalancer.RenderScw builds from `expected`. -/
def lbCreateRequest (expected : LoadBalancer) : CreateLbRequest :=
  { zone := expected.zone.getD ""
    name := expected.name.getD ""
    tags := expected.tags
    type := expected.type
    assignFlexibleIP := true }

/-- LoadBalancer.RenderScw.  With an `actual`: update the tags (whenever
`changes` is non-nil or the tag counts differ) and copy actual's ID and
addresses onto expected.  Without: create the LB, wait for it, attach the
private network (an attach failure drops the underlying cause — the source
formats %w without an argument), wait again, then set expected's ID and
addresses from the created LB. -/
def LoadBalancer.RenderScw (cloud : LbCloud) (actual : Option LoadBalancer)
    (expected : LoadBalancer) (changes : Option LoadBalancer) :
    List ApiEvent × Except String LoadBalancer :=
  match actual with
  | some act =>
      if changes.isSome || act.tags.length ≠ expected.tags.length then
        match cloud.UpdateLB
            { zone := act.zone.getD ""
              lbID := act.id.getD ""
              name := act.name.getD ""
              description := expected.description
              sslCompatibilityLevel := expected.sslCompatibilityLevel
              tags := expected.tags } with
        | Except.error e =>
            ([ApiEvent.updateLB (act.id.getD "")],
             Except.error ("updatings tags for load-balancer " ++
               expected.name.getD "" ++ ": " ++ e))
        | Except.ok _ =>
            ([ApiEvent.updateLB (act.id.getD "")],
             Except.ok { expected with id := act.id, lbAddresses := act.lbAddresses })
      else
        ([], Except.ok { expected with id := act.id, lbAddresses := act.lbAddresses })
  | none =>
      let zone := expected.zone.getD ""
      match cloud.CreateLB (lbCreateRequest expected) with
      | Except.error e =>
          ([ApiEvent.createLB], Except.error ("creating load-balancer: " ++ e))
      | Except.ok lbCreated =>
          match cloud.WaitForLb lbCreated.id zone with
          | Except.error e =>
              ([ApiEvent.createLB, ApiEvent.waitForLb lbCreated.id],
               Except.error ("waiting for load-balancer " ++ lbCreated.id ++ ": " ++ e))
          | Except.ok _ =>
              match cloud.AttachPrivateNetwork zone lbCreated.id
                  ((expected.privateNetwork.bind PrivateNetwork.id).getD "") with
              | Except.error _ =>
                  ([ApiEvent.createLB, ApiEvent.waitForLb lbCreated.id,
                    ApiEvent.attachPrivateNetwork lbCreated.id],
                   Except.error "attaching load-balancer to private network: %!w(MISSING)")
              | Except.ok _ =>
                  match cloud.WaitForLb lbCreated.id zone with
                  | Except.error e =>
                      ([ApiEvent.createLB, ApiEvent.waitForLb lbCreated.id,
                        ApiEvent.attachPrivateNetwork lbCreated.id,
                        ApiEvent.waitForLb lbCreated.id],
                       Except.error ("waiting for load-balancer " ++ lbCreated.id ++ ": " ++ e))
                  | Except.ok _ =>
                      ([ApiEvent.createLB, ApiEvent.waitForLb lbCreated.id,
                        ApiEvent.attachPrivateNetwork lbCreated.id,
                        ApiEvent.waitForLb lbCreated.id],
                       Except.ok { expected with
                         id := some lbCreated.id
                         lbAddresses := lbCreated.ip.map (fun ip => ip.ipAddress) })

/-! ## First-free-slot allocation (scalewaytasks) -/

/-- Modelled from the spec: findFirstFreeIndex (its defining Go file is not
under src/; only its test is).  The spec: the algorithm scans existing
ordinals, sorts them, and returns the smallest non-negative integer not
already in use.  Sorting then scanning: each ordinal equal to the running
candidate bumps the candidate by one. -/
def findFirstFreeIndex (existing : List Nat) : Nat :=
  (existing.insertionSort (· ≤ ·)).foldl
    (fun index ordinal => if ordinal = index then index + 1 else index) 0

/-! ## The declarative-file target (target_hcl2.go)

A Go map is modelled as its lookup function together with its iteration
order: `keys` is the (unordered, run-dependent) order Go's `range` yields,
and `val` the mapping.  Two runs over identical input task sets build the
same mapping but may iterate it in different orders.  The bodies written for
the individual values (terraformWriter's element writer) are deterministic
functions of the value, so values are carried here as already-rendered
strings. -/

structure StringMap (V : Type) where
  keys : List String
  val : String → V

/-- sort.Strings, as target_hcl2.go applies it to collected map keys. -/
def sortKeys (keys : List String) : List String :=
  keys.insertionSort (· ≤ ·)

/-- fmt %q on a name (resource/data-source names carry no escapes). -/
def quoteName (s : String) : String := "\"" ++ s ++ "\""

/-- writeResources / writeDataSources (target_hcl2.go): sort the resource
types, then for each type sort the resource names, and emit one block per
resource.  `word` is "resource" or "data". -/
def writeBlocks (word : String) (byType : StringMap (StringMap String)) : String :=
  String.join ((sortKeys byType.keys).map (fun resourceType =>
    let resources := byType.val resourceType
    String.join ((sortKeys resources.keys).map (fun resourceName =>
      word ++ " " ++ quoteName resourceType ++ " " ++ quoteName resourceName ++
        " " ++ resources.val resourceName ++ "\n"))))

/-- terraformWriter.OutputValue as writeLocalsOutputs reads it: a scalar
literal or a value list (both already rendered). -/
structure OutputValue where
  value : Option String
  valueArray : List String
deriving DecidableEq, Repr

/-- terraformWriter.LiteralListExpression, as a rendered string. -/
def literalListExpression (xs : List String) : String :=
  "[" ++ String.intercalate ", " xs ++ "]"

/-- The local literal writeLocalsOutputs stores for one output value. -/
def localLiteral (v : OutputValue) : String :=
  match v.value with
  | some s => s
  | none => literalListExpression v.valueArray

/-- Modelled from the spec: the object writer mapToElement(...).ToObject()
.Write of terraformWriter (not under src/) — per the spec the locals block's
names are emitted in sorted order; one `name = value` line per entry. -/
def objectBlock (title : String) (entries : List (String × String)) : String :=
  title ++ " \x7b\n" ++
    String.join (entries.map (fun kv => "  " ++ kv.1 ++ " = " ++ kv.2 ++ "\n")) ++
    "\x7d\n"

/-- writeLocalsOutputs (target_hcl2.go): nothing for an empty outputs map;
otherwise one locals block and then one output block per output variable,
names in sorted order.  (The duplicate-variable panic of the source cannot
fire: a Go map presents each key once.) -/
def writeLocalsOutputs (outputs : StringMap OutputValue) : String :=
  if outputs.keys.isEmpty then ""
  else
    let outputNames := sortKeys outputs.keys
    objectBlock "locals"
      (outputNames.map (fun k => (k, localLiteral (outputs.val k)))) ++ "\n" ++
    String.join (outputNames.map (fun tfName =>
      objectBlock ("output " ++ quoteName tfName)
        [("value", localLiteral (outputs.val tfName))] ++ "\n"))

/-! ## The Scaleway DNS provider's record changeset (package dns)

resourceRecordChangeset.Apply, modelled over the zone's actual records (the
listRecords response is passed in as an `Except`).  The one
UpdateDNSZoneRecords call the source issues at the end is returned as data:
Apply yields the list of issued update requests, so "no call" and "exactly
one call" are provable facts rather than modelling choices. -/

/-- domain.Record of the zone listing (the fields Apply reads). -/
structure DomainRecord where
  id : String
  name : String
  data : String
  ttl : Nat
  type : String
deriving DecidableEq, Repr

/-- domain.Record as placed inside a change (no ID yet). -/
structure RecordData where
  name : String
  data : String
  ttl : Nat
  type : String
deriving DecidableEq, Repr

/-- domain.RecordChange: a Set (update by ID), an Add, or a Delete. -/
inductive RecordChange where
  | set (id : String) (records : List RecordData)
  | add (records : List RecordData)
  | del (id : String)
deriving DecidableEq, Repr

/-- domain.UpdateDNSZoneRecordsRequest. -/
structure UpdateDNSZoneRecordsRequest where
  dnsZone : String
  changes : List RecordChange
deriving DecidableEq, Repr

/-- dnsprovider.ResourceRecordSet (name, rrdatas, ttl, type). -/
structure ResourceRecordSet where
  name : String
  data : List String
  ttl : Nat
  type : String
deriving DecidableEq, Repr

/-- resourceRecordChangeset: the zone it belongs to and the accumulated
additions, removals and upserts. -/
structure ResourceRecordChangeset where
  zoneName : String
  additions : List ResourceRecordSet
  removals : List ResourceRecordSet
  upserts : List ResourceRecordSet
deriving DecidableEq, Repr

/-- resourceRecordChangeset.IsEmpty. -/
def ResourceRecordChangeset.IsEmpty (r : ResourceRecordChangeset) : Bool :=
  r.additions.isEmpty && r.removals.isEmpty && r.upserts.isEmpty

/-- The upsert comparison of Apply: the zone record's name with the zone
suffix and a final dot equals the record set's dot-suffixed name, and the
types agree. -/
def upsertMatches (zoneName : String) (record : DomainRecord)
    (rrset : ResourceRecordSet) : Bool :=
  (record.name ++ "." ++ zoneName ++ "." == EnsureDotSuffix rrset.name) &&
    (rrset.type == record.type)

/-- The inner record scan of the upsert loop for one rrdata: one Set change
per matching zone record, and whether any matched (the `found` flag). -/
def upsertScanRecords (zoneName : String) (rrset : ResourceRecordSet)
    (rrdata : String) (records : List DomainRecord) :
    List RecordChange × Bool :=
  records.foldl
    (fun st record =>
      if upsertMatches zoneName record rrset then
        (st.1 ++ [RecordChange.set record.id
          [{ name := record.name, data := rrdata, ttl := rrset.ttl,
             type := rrset.type }]], true)
      else st)
    ([], false)

/-- One upserted record set: scan the zone records for each datum, append
the resulting Set changes, and reclassify the record set as an addition for
each datum that matched nothing. -/
def upsertRrset (zoneName : String) (records : List DomainRecord)
    (rrset : ResourceRecordSet)
    (st : List RecordChange × List ResourceRecordSet) :
    List RecordChange × List ResourceRecordSet :=
  rrset.data.foldl
    (fun st2 rrdata =>
      let scanned := upsertScanRecords zoneName rrset rrdata records
      (st2.1 ++ scanned.1,
       if scanned.2 then st2.2 else st2.2 ++ [rrset]))
    st

/-- The upsert phase of Apply over all upserted record sets; the state is
(update changes so far, the changeset's additions so far). -/
def upsertPhase (zoneName : String) (records : List DomainRecord) :
    List ResourceRecordSet → List RecordChange × List ResourceRecordSet →
      List RecordChange × List ResourceRecordSet
  | [], st => st
  | rrset :: rest, st =>
      upsertPhase zoneName records rest (upsertRrset zoneName records rrset st)

/-- The record an addition contributes for one datum: the record-set name
with the trailing dot and the ".zone" suffix trimmed. -/
def addRecordOf (zoneName : String) (rrset : ResourceRecordSet)
    (rrdata : String) : RecordData :=
  { name := trimSuffixGo (trimSuffixGo rrset.name ".") ("." ++ zoneName)
    data := rrdata
    ttl := rrset.ttl
    type := rrset.type }

/-- All records one addition contributes (one per datum). -/
def addRecordsOf (zoneName : String) (rrset : ResourceRecordSet) :
    List RecordData :=
  rrset.data.map (addRecordOf zoneName rrset)

/-- The additions phase of Apply: `recordsToAdd` accumulates across record
sets, and after each record set an Add change holding the accumulated slice
so far is appended (as in the source, earlier record sets' records recur in
later Add changes). -/
def buildAddChanges (zoneName : String) :
    List ResourceRecordSet → List RecordData → List RecordChange
  | [], _ => []
  | rrset :: rest, recordsToAdd =>
      let recordsToAdd2 := recordsToAdd ++ addRecordsOf zoneName rrset
      RecordChange.add recordsToAdd2 ::
        buildAddChanges zoneName rest recordsToAdd2

/-- The removals phase of Apply: one Delete change per zone record whose
dot-suffixed name, first datum and type all match the removed record set.
(On an empty-rrdatas removal the source indexes Rrdatas()[0] and panics; the
model reads the Go zero value instead.) -/
def buildDeleteChanges (zoneName : String) (records : List DomainRecord)
    (removals : List ResourceRecordSet) : List RecordChange :=
  removals.foldl
    (fun acc rrset =>
      records.foldl
        (fun acc2 record =>
          if (record.name ++ "." ++ zoneName ++ "." == EnsureDotSuffix rrset.name) &&
              (record.data == rrset.data.headD "") &&
              (rrset.type == record.type) then
            acc2 ++ [RecordChange.del record.id]
          else acc2)
        acc)
    []

/-- resourceRecordChangeset.Apply.  The result lists the
UpdateDNSZoneRecords requests issued: none for an empty changeset, exactly
one otherwise; a listing failure surfaces before any call. -/
def ResourceRecordChangeset.Apply (r : ResourceRecordChangeset)
    (listRecords : Except String (List DomainRecord)) :
    Except String (List UpdateDNSZoneRecordsRequest) :=
  if r.IsEmpty then Except.ok []
  else
    match listRecords with
    | Except.error e => Except.error ("failed to list records: " ++ e)
    | Except.ok records =>
        let upserted := upsertPhase r.zoneName records r.upserts ([], r.additions)
        let addChanges := buildAddChanges r.zoneName upserted.2 []
        let deleteChanges := buildDeleteChanges r.zoneName records r.removals
        Except.ok
          [{ dnsZone := r.zoneName
             changes := upserted.1 ++ addChanges ++ deleteChanges }]

/-! ## Concrete values used by the closed theorems below -/

/-- A private network task with a known ID. -/
def pnEx : PrivateNetwork := { id := some "pn-1", name := some "pn" }

/-- A load balancer task holding no private-network reference. -/
def lbNoRef : LoadBalancer :=
  { id := none
    name := some "lb"
    zone := some "fr-par-1"
    tags := []
    type := "LB-S"
    lbAddresses := []
    description := ""
    sslCompatibilityLevel := ""
    wellKnownServices := []
    forAPIServer := false
    lifecycle := "Normal"
    privateNetwork := none }

/-- A gateway task about to be created. -/
def gatewayEx : Gateway :=
  { id := none, name := some "gw", zone := some "fr-par-1", tags := [],
    lifecycle := "Normal" }

/-- A gateway-service oracle whose calls all succeed. -/
def gatewayCloudEx : GatewayCloud :=
  { CreateGateway := fun _ => Except.ok { id := "gw-id-1" }
    WaitForGateway := fun _ _ => Except.ok () }

/-- A gateway-service oracle whose wait fails. -/
def gatewayCloudWaitFail : GatewayCloud :=
  { CreateGateway := fun _ => Except.ok { id := "gw-id-1" }
    WaitForGateway := fun _ _ => Except.error "timeout" }

/-- A load balancer task about to be created. -/
def lbEx : LoadBalancer := { lbNoRef with privateNetwork := some pnEx }

/-- An LB-service oracle whose calls all succeed. -/
def lbCloudEx : LbCloud :=
  { CreateLB := fun _ => Except.ok { id := "lb-id-1", ip := [{ ipAddress := "1.2.3.4", isIPv6 := false }] }
    WaitForLb := fun _ _ => Except.ok ()
    AttachPrivateNetwork := fun _ _ _ => Except.ok ()
    UpdateLB := fun _ => Except.ok () }

/-- A gateway network task about to be created. -/
def gwnEx : GatewayNetwork :=
  { id := none, name := some "gwn", zone := some "fr-par-1",
    lifecycle := "Normal",
    gateway := some { gatewayEx with id := some "gw-id-1" },
    privateNetwork := some pnEx }

/-- A gateway-network-service oracle whose calls all succeed and whose
cluster has no servers. -/
def gwnCloudEx : GwnCloud :=
  { CreateGatewayNetwork := fun _ => Except.ok { id := "gwn-id-1" }
    WaitForGatewayNetwork := fun _ _ => Except.ok ()
    GetClusterServers := fun _ => Except.ok []
    GetServerPrivateIP := fun _ _ => Except.ok "10.0.0.1"
    CreatePATRule := fun _ _ _ => Except.ok () }

/-! # Theorems -/

/-! ## First-free-slot allocation -/

theorem ffiFoldConst (t : List Nat) (a : Nat) (h : ∀ x ∈ t, a < x) :
    t.foldl (fun index ordinal => if ordinal = index then index + 1 else index) a
      = a := by
  induction t with
  | nil => rfl
  | cons o rest ih =>
      have ho : a < o := h o (by simp)
      simp only [List.foldl_cons]
      rw [if_neg (by omega)]
      exact ih (fun x hx => h x (by simp [hx]))

theorem ffiFoldSortedSpec (s : List Nat) (hs : s.Sorted (· ≤ ·)) :
    ∀ a : Nat,
      a ≤ s.foldl (fun index ordinal => if ordinal = index then index + 1 else index) a ∧
      s.foldl (fun index ordinal => if ordinal = index then index + 1 else index) a ∉ s ∧
      ∀ k, a ≤ k →
        k < s.foldl (fun index ordinal => if ordinal = index then index + 1 else index) a →
        k ∈ s := by
  induction s with
  | nil =>
      intro a
      refine ⟨Nat.le_refl a, by simp, ?_⟩
      intro k hk hk2
      simp only [List.foldl_nil] at hk2
      omega
  | cons o rest ih =>
      intro a
      rw [List.sorted_cons] at hs
      obtain ⟨hrest, hsorted⟩ := hs
      by_cases ho : o = a
      · obtain ⟨h1, h2, h3⟩ := ih hsorted (a + 1)
        simp only [List.foldl_cons]
        rw [if_pos ho]
        refine ⟨by omega, ?_, ?_⟩
        · intro hmem
          rcases List.mem_cons.mp hmem with heq | hmem2
          · omega
          · exact h2 hmem2
        · intro k hk hk2
          rcases Nat.eq_or_lt_of_le hk with heq | hlt
          · exact List.mem_cons.mpr (Or.inl (by omega))
          · exact List.mem_cons.mpr (Or.inr (h3 k (by omega) hk2))
      · simp only [List.foldl_cons, if_neg ho]
        rcases Nat.lt_or_ge a o with hao | hoa
        · have hconst := ffiFoldConst rest a (fun x hx => by
            have := hrest x hx
            omega)
          rw [hconst]
          refine ⟨Nat.le_refl a, ?_, ?_⟩
          · intro hmem
            rcases List.mem_cons.mp hmem with heq | hmem2
            · omega
            · have := hrest a hmem2
              omega
          · intro k hk hk2
            omega
        · have holt : o < a := by omega
          obtain ⟨h1, h2, h3⟩ := ih hsorted a
          refine ⟨h1, ?_, ?_⟩
          · intro hmem
            rcases List.mem_cons.mp hmem with heq | hmem2
            · omega
            · exact h2 hmem2
          · intro k hk hk2
            exact List.mem_cons.mpr (Or.inr (h3 k hk hk2))

/-- Claim C1: findFirstFreeIndex returns the smallest non-negative integer
not already used as an ordinal (not necessarily max+1); on the ordinal sets
of the source's test it returns 3 for (0,2,1), 0 for (1,2,4), and 1 for
(4,5,2,3,0). -/
theorem findFirstFreeIndex_least_unused :
    (∀ existing : List Nat,
        findFirstFreeIndex existing ∉ existing ∧
        ∀ k, k < findFirstFreeIndex existing → k ∈ existing) ∧
    findFirstFreeIndex [0, 2, 1] = 3 ∧
    findFirstFreeIndex [1, 2, 4] = 0 ∧
    findFirstFreeIndex [4, 5, 2, 3, 0] = 1 := by
  refine ⟨?_, by decide, by decide, by decide⟩
  intro existing
  have hperm := List.perm_insertionSort (· ≤ ·) existing
  have hsorted := List.sorted_insertionSort (· ≤ ·) existing
  obtain ⟨-, h2, h3⟩ := ffiFoldSortedSpec (existing.insertionSort (· ≤ ·)) hsorted 0
  constructor
  · intro hmem
    exact h2 (hperm.mem_iff.mpr hmem)
  · intro k hk
    exact hperm.mem_iff.mp (h3 k (Nat.zero_le k) hk)

/-! ## CheckChanges -/

/-- Claim C2: for every task kind, with a non-nil `actual`, CheckChanges
returns a CannotChangeField error whenever `changes` holds a non-nil value
for one of that kind's immutable fields (GatewayNetwork: ID, Zone;
LoadBalancer and Gateway: Name, ID, Zone; DNSRecord: Name, DNSZone, Type;
PrivateNIC: Name, Zone), regardless of the requested value. -/
theorem CheckChanges_rejects_immutable_fields :
    (∀ (actual expected changes : GatewayNetwork),
        changes.id.isSome ∨ changes.zone.isSome →
        ∃ f, GatewayNetwork.CheckChanges (some actual) expected changes =
          some (TaskError.cannotChangeField f)) ∧
    (∀ (actual expected changes : LoadBalancer),
        changes.name.isSome ∨ changes.id.isSome ∨ changes.zone.isSome →
        ∃ f, LoadBalancer.CheckChanges (some actual) expected changes =
          some (TaskError.cannotChangeField f)) ∧
    (∀ (actual expected changes : Gateway),
        changes.name.isSome ∨ changes.id.isSome ∨ changes.zone.isSome →
        ∃ f, Gateway.CheckChanges (some actual) expected changes =
          some (TaskError.cannotChangeField f)) ∧
    (∀ (actual expected changes : DNSRecord),
        changes.name.isSome ∨ changes.dnsZone.isSome ∨ changes.type.isSome →
        ∃ f, DNSRecord.CheckChanges (some actual) expected changes =
          some (TaskError.cannotChangeField f)) ∧
    (∀ (actual expected changes : PrivateNIC),
        changes.name.isSome ∨ changes.zone.isSome →
        ∃ f, PrivateNIC.CheckChanges (some actual) expected changes =
          some (TaskError.cannotChangeField f)) := by
  refine ⟨?_, ?_, ?_, ?_, ?_⟩
  · intro a e c h
    cases hid : c.id.isSome
    · cases hz : c.zone.isSome
      · rcases h with h | h <;> simp_all
      · exact ⟨"Zone", by simp [GatewayNetwork.CheckChanges, hid, hz]⟩
    · exact ⟨"ID", by simp [GatewayNetwork.CheckChanges, hid]⟩
  · intro a e c h
    cases hn : c.name.isSome
    · cases hid : c.id.isSome
      · cases hz : c.zone.isSome
        · rcases h with h | h | h <;> simp_all
        · exact ⟨"Zone", by simp [LoadBalancer.CheckChanges, hn, hid, hz]⟩
      · exact ⟨"ID", by simp [LoadBalancer.CheckChanges, hn, hid]⟩
    · exact ⟨"Name", by simp [LoadBalancer.CheckChanges, hn]⟩
  · intro a e c h
    cases hn : c.name.isSome
    · cases hid : c.id.isSome
      · cases hz : c.zone.isSome
        · rcases h with h | h | h <;> simp_all
        · exact ⟨"Zone", by simp [Gateway.CheckChanges, hn, hid, hz]⟩
      · exact ⟨"ID", by simp [Gateway.CheckChanges, hn, hid]⟩
    · exact ⟨"Name", by simp [Gateway.CheckChanges, hn]⟩
  · intro a e c h
    cases hn : c.name.isSome
    · cases hz : c.dnsZone.isSome
      · cases ht : c.type.isSome
        · rcases h with h | h | h <;> simp_all
        · exact ⟨"Type", by simp [DNSRecord.CheckChanges, hn, hz, ht]⟩
      · exact ⟨"DNSZone", by simp [DNSRecord.CheckChanges, hn, hz]⟩
    · exact ⟨"Name", by simp [DNSRecord.CheckChanges, hn]⟩
  · intro a e c h
    cases hn : c.name.isSome
    · cases hz : c.zone.isSome
      · rcases h with h | h <;> simp_all
      · exact ⟨"Zone", by simp [PrivateNIC.CheckChanges, hn, hz]⟩
    · exact ⟨"Name", by simp [PrivateNIC.CheckChanges, hn]⟩

/-- Claim C5: for every task kind, with `actual == nil`, CheckChanges
returns a RequiredField error whenever a mandatory field of `expected` is
nil (DNSRecord: Name, DNSZone, Type, Data; Gateway, LoadBalancer,
PrivateNIC: Name, Zone; GatewayNetwork: Zone). -/
theorem CheckChanges_requires_mandatory_fields :
    (∀ (expected changes : DNSRecord),
        expected.name = none ∨ expected.dnsZone = none ∨
          expected.type = none ∨ expected.data = none →
        ∃ f, DNSRecord.CheckChanges none expected changes =
          some (TaskError.requiredField f)) ∧
    (∀ (expected changes : Gateway),
        expected.name = none ∨ expected.zone = none →
        ∃ f, Gateway.CheckChanges none expected changes =
          some (TaskError.requiredField f)) ∧
    (∀ (expected changes : GatewayNetwork),
        expected.zone = none →
        ∃ f, GatewayNetwork.CheckChanges none expected changes =
          some (TaskError.requiredField f)) ∧
    (∀ (expected changes : LoadBalancer),
        expected.name = none ∨ expected.zone = none →
        ∃ f, LoadBalancer.CheckChanges none expected changes =
          some (TaskError.requiredField f)) ∧
    (∀ (expected changes : PrivateNIC),
        expected.name = none ∨ expected.zone = none →
        ∃ f, PrivateNIC.CheckChanges none expected changes =
          some (TaskError.requiredField f)) := by
  refine ⟨?_, ?_, ?_, ?_, ?_⟩
  · intro e c h
    by_cases h1 : e.name = none
    · exact ⟨"Name", by simp [DNSRecord.CheckChanges, h1]⟩
    · by_cases h2 : e.dnsZone = none
      · exact ⟨"DNSZone", by simp [DNSRecord.CheckChanges, Option.isNone_iff_eq_none, h1, h2]⟩
      · by_cases h3 : e.type = none
        · exact ⟨"Type", by simp [DNSRecord.CheckChanges, Option.isNone_iff_eq_none, h1, h2, h3]⟩
        · by_cases h4 : e.data = none
          · exact ⟨"Data", by simp [DNSRecord.CheckChanges, Option.isNone_iff_eq_none, h1, h2, h3, h4]⟩
          · rcases h with h | h | h | h <;> simp_all
  · intro e c h
    by_cases h1 : e.name = none
    · exact ⟨"Name", by simp [Gateway.CheckChanges, h1]⟩
    · by_cases h2 : e.zone = none
      · exact ⟨"Zone", by simp [Gateway.CheckChanges, Option.isNone_iff_eq_none, h1, h2]⟩
      · rcases h with h | h <;> simp_all
  · intro e c h
    exact ⟨"Zone", by simp [GatewayNetwork.CheckChanges, h]⟩
  · intro e c h
    by_cases h1 : e.name = none
    · exact ⟨"Name", by simp [LoadBalancer.CheckChanges, h1]⟩
    · by_cases h2 : e.zone = none
      · exact ⟨"Zone", by simp [LoadBalancer.CheckChanges, Option.isNone_iff_eq_none, h1, h2]⟩
      · rcases h with h | h <;> simp_all
  · intro e c h
    by_cases h1 : e.name = none
    · exact ⟨"Name", by simp [PrivateNIC.CheckChanges, h1]⟩
    · by_cases h2 : e.zone = none
      · exact ⟨"Zone", by simp [PrivateNIC.CheckChanges, Option.isNone_iff_eq_none, h1, h2]⟩
      · rcases h with h | h <;> simp_all

/-! ## Find -/

/-- Claim C3: each Find returns nil,nil when the listing holds no matching
resource (absence is not an error), and surfaces a failure of the listing
call as an error wrapping the cause. -/
theorem Find_absent_is_nil_and_errors_surface :
    (∀ g : GatewayNetwork, g.Find (Except.ok []) = Except.ok none) ∧
    (∀ (g : GatewayNetwork) (e : String),
        g.Find (Except.error e) =
          Except.error ("listing gateway networks: " ++ e)) ∧
    (∀ d : DNSRecord, d.Find (Except.ok []) = Except.ok none) ∧
    (∀ (d : DNSRecord) (e : String),
        d.Find (Except.error e) =
          Except.error ("listing DNS records named " ++ d.name.getD "" ++
            " in zone " ++ d.dnsZone.getD "" ++ ": " ++ e)) ∧
    (∀ g : Gateway, g.Find (Except.ok []) = Except.ok none) ∧
    (∀ (g : Gateway) (e : String),
        g.Find (Except.error e) = Except.error ("listing gateways: " ++ e)) := by
  exact ⟨fun g => rfl, fun g e => rfl, fun d => rfl, fun d e => rfl,
    fun g => rfl, fun g e => rfl⟩

/-- Claim C9: on a listing with more than one match, LoadBalancer.Find
returns nil,nil — ambiguity reads as absence — while Gateway.Find and
GatewayNetwork.Find return an error naming the count. -/
theorem Find_multiple_matches_lb_nil_gateway_error :
    (∀ (l : LoadBalancer) (lbs : List LbListItem)
        (region : Except String String) (ips : Except String (List String)),
        1 < lbs.length →
        l.Find (Except.ok lbs) region ips = Except.ok none) ∧
    (∀ (g : Gateway) (items : List GatewayListItem),
        1 < items.length →
        g.Find (Except.ok items) =
          Except.error ("expected exactly 1 gateway, got " ++ toString items.length)) ∧
    (∀ (g : GatewayNetwork) (items : List GwnListItem),
        1 < items.length →
        g.Find (Except.ok items) =
          Except.error ("expected exactly 1 gateway network, got " ++
            toString items.length)) := by
  refine ⟨?_, ?_, ?_⟩
  · intro l lbs region ips h
    have hne : lbs.length ≠ 1 := by omega
    simp [LoadBalancer.Find, hne]
  · intro g items h
    match items, h with
    | x :: y :: rest, _ => simp [Gateway.Find]
  · intro g items h
    match items, h with
    | x :: y :: rest, _ => simp [GatewayNetwork.Find]

/-! ## GetDependencies -/

theorem foldlAppendFilter (p : CloudupTask → Bool) :
    ∀ (l : List CloudupTask) (acc : List CloudupTask),
      l.foldl (fun deps t => if p t then deps ++ [t] else deps) acc =
        acc ++ l.filter p := by
  intro l
  induction l with
  | nil => intro acc; simp
  | cons t rest ih =>
      intro acc
      cases hp : p t
      · simp [List.foldl_cons, hp, ih, List.filter_cons]
      · simp [List.foldl_cons, hp, ih, List.filter_cons]

/-- Claim C7 counterexample: a load balancer holding no private-network
reference (its reference field is nil) still receives a dependency — the
task set's private network — so GetDependencies does not return the tasks
the receiver references. -/
theorem GetDependencies_counterexample :
    lbNoRef.privateNetwork = none ∧
    lbNoRef.GetDependencies [CloudupTask.privateNetwork pnEx] =
      [CloudupTask.privateNetwork pnEx] ∧
    lbNoRef.GetDependencies [CloudupTask.privateNetwork pnEx] ≠ [] := by
  refine ⟨rfl, rfl, ?_⟩
  decide

/-- Claim C7 as amended: GetDependencies selects from the whole task set by
concrete task type — every PrivateNetwork task for a LoadBalancer, every
PrivateNetwork and every Gateway task for a GatewayNetwork, every Instance
and every PrivateNetwork task for a PrivateNIC — independent of the
receiver's own reference fields. -/
theorem GetDependencies_selects_by_type :
    (∀ (l : LoadBalancer) (tasks : List CloudupTask),
        l.GetDependencies tasks = tasks.filter isPrivateNetworkTask) ∧
    (∀ (g : GatewayNetwork) (tasks : List CloudupTask),
        g.GetDependencies tasks =
          tasks.filter (fun t => isPrivateNetworkTask t || isGatewayTask t)) ∧
    (∀ (p : PrivateNIC) (tasks : List CloudupTask),
        p.GetDependencies tasks =
          tasks.filter (fun t => isInstanceTask t || isPrivateNetworkTask t)) ∧
    (∀ (l1 l2 : LoadBalancer) (tasks : List CloudupTask),
        l1.GetDependencies tasks = l2.GetDependencies tasks) := by
  have hlb : ∀ (l : LoadBalancer) (tasks : List CloudupTask),
      l.GetDependencies tasks = tasks.filter isPrivateNetworkTask := by
    intro l tasks
    have hbody : (fun (deps : List CloudupTask) (task : CloudupTask) =>
        match task with
        | CloudupTask.privateNetwork _ => deps ++ [task]
        | _ => deps) =
        (fun deps t => if isPrivateNetworkTask t then deps ++ [t] else deps) := by
      funext deps t
      cases t <;> rfl
    unfold LoadBalancer.GetDependencies
    rw [hbody, foldlAppendFilter]
    simp
  refine ⟨hlb, ?_, ?_, fun l1 l2 tasks => (hlb l1 tasks).trans (hlb l2 tasks).symm⟩
  · intro g tasks
    have hbody : (fun (deps : List CloudupTask) (task : CloudupTask) =>
        match task with
        | CloudupTask.gateway _ =>
            (match task with
             | CloudupTask.privateNetwork _ => deps ++ [task]
             | _ => deps) ++ [task]
        | _ =>
            match task with
            | CloudupTask.privateNetwork _ => deps ++ [task]
            | _ => deps) =
        (fun deps t =>
          if isPrivateNetworkTask t || isGatewayTask t then deps ++ [t] else deps) := by
      funext deps t
      cases t <;> rfl
    unfold GatewayNetwork.GetDependencies
    rw [hbody, foldlAppendFilter]
    simp
  · intro p tasks
    have hbody : (fun (deps : List CloudupTask) (task : CloudupTask) =>
        match task with
        | CloudupTask.privateNetwork _ =>
            (match task with
             | CloudupTask.instanceTask _ => deps ++ [task]
             | _ => deps) ++ [task]
        | _ =>
            match task with
            | CloudupTask.instanceTask _ => deps ++ [task]
            | _ => deps) =
        (fun deps t =>
          if isInstanceTask t || isPrivateNetworkTask t then deps ++ [t] else deps) := by
      funext deps t
      cases t <;> rfl
    unfold PrivateNIC.GetDependencies
    rw [hbody, foldlAppendFilter]
    simp

/-! ## The declarative-file target -/

theorem sortKeysPermCongr {l1 l2 : List String} (h : l1.Perm l2) :
    sortKeys l1 = sortKeys l2 := by
  unfold sortKeys
  exact List.eq_of_perm_of_sorted
    ((List.perm_insertionSort _ l1).trans (h.trans (List.perm_insertionSort _ l2).symm))
    (List.sorted_insertionSort _ l1) (List.sorted_insertionSort _ l2)

theorem sortKeysSorted (l : List String) : (sortKeys l).Sorted (· ≤ ·) :=
  List.sorted_insertionSort _ l

/-- Claim C4: the declarative-file output is a deterministic function of the
accumulated maps — across two runs over the same maps (same lookup
functions; the run-dependent map iteration orders are permutations of each
other) the rendered blocks are byte-identical — and the emission order is
sorted: resource blocks by type then name (data sources render through the
same writer), and locals/output names in sorted order. -/
theorem declarative_output_deterministic :
    (∀ (word : String) (m1 m2 : StringMap (StringMap String)),
        m1.keys.Perm m2.keys →
        (∀ ty, (m1.val ty).keys.Perm (m2.val ty).keys) →
        (∀ ty, (m1.val ty).val = (m2.val ty).val) →
        writeBlocks word m1 = writeBlocks word m2) ∧
    (∀ (o1 o2 : StringMap OutputValue),
        o1.keys.Perm o2.keys → o1.val = o2.val →
        writeLocalsOutputs o1 = writeLocalsOutputs o2) ∧
    (∀ m : StringMap (StringMap String),
        (sortKeys m.keys).Sorted (· ≤ ·) ∧
        ∀ ty, (sortKeys (m.val ty).keys).Sorted (· ≤ ·)) ∧
    (∀ o : StringMap OutputValue, (sortKeys o.keys).Sorted (· ≤ ·)) := by
  refine ⟨?_, ?_, ?_, ?_⟩
  · intro word m1 m2 hk hik hiv
    unfold writeBlocks
    rw [sortKeysPermCongr hk]
    apply congrArg String.join
    apply List.map_congr_left
    intro ty _
    dsimp only
    rw [sortKeysPermCongr (hik ty), hiv ty]
  · intro o1 o2 hk hv
    unfold writeLocalsOutputs
    have hlen : o1.keys.length = o2.keys.length := hk.length_eq
    have hempty : o1.keys.isEmpty = o2.keys.isEmpty := by
      cases h1 : o1.keys <;> cases h2 : o2.keys <;>
        simp_all [List.isEmpty]
    rw [hempty, sortKeysPermCongr hk, hv]
  · intro m
    exact ⟨sortKeysSorted m.keys, fun ty => sortKeysSorted (m.val ty).keys⟩
  · intro o
    exact sortKeysSorted o.keys

/-! ## RenderScw: creation, identifiers, waits -/

theorem gatewayRenderOkInv (cloud : GatewayCloud) (expected e' : Gateway)
    (changes : Option Gateway)
    (h : (Gateway.RenderScw cloud none expected changes).2 = Except.ok e') :
    ∃ created, cloud.CreateGateway (gatewayCreateRequest expected) = Except.ok created ∧
      e' = { expected with id := some created.id } ∧
      (Gateway.RenderScw cloud none expected changes).1 =
        [ApiEvent.createGateway, ApiEvent.waitForGateway created.id] := by
  cases hc : cloud.CreateGateway (gatewayCreateRequest expected) with
  | error e => simp [Gateway.RenderScw, hc] at h
  | ok created =>
      cases hw : cloud.WaitForGateway created.id (expected.zone.getD "") with
      | error e => simp [Gateway.RenderScw, hc, hw] at h
      | ok u =>
          simp only [Gateway.RenderScw, hc, hw] at h ⊢
          exact ⟨created, rfl, by simp_all, rfl⟩

theorem gatewayRenderWaitFail (cloud : GatewayCloud) (expected : Gateway)
    (changes : Option Gateway) (created : CreatedGateway) (e : String)
    (hc : cloud.CreateGateway (gatewayCreateRequest expected) = Except.ok created)
    (hw : cloud.WaitForGateway created.id (expected.zone.getD "") = Except.error e) :
    (Gateway.RenderScw cloud none expected changes).2 =
      Except.error ("waiting for gateway: " ++ e) := by
  simp [Gateway.RenderScw, hc, hw]

theorem gwnRenderOkInv (cloud : GwnCloud) (expected e' : GatewayNetwork)
    (changes : Option GatewayNetwork)
    (h : (GatewayNetwork.RenderScw cloud none expected changes).2 = Except.ok e') :
    ∃ created,
      cloud.CreateGatewayNetwork (gwnCreateRequest expected) = Except.ok created ∧
      e' = { expected with id := some created.id } ∧
      ∃ rest, (GatewayNetwork.RenderScw cloud none expected changes).1 =
        ApiEvent.createGatewayNetwork ::
          ApiEvent.waitForGatewayNetwork created.id :: rest := by
  cases hc : cloud.CreateGatewayNetwork (gwnCreateRequest expected) with
  | error e => simp [GatewayNetwork.RenderScw, hc] at h
  | ok created =>
      cases hw : cloud.WaitForGatewayNetwork created.id (expected.zone.getD "") with
      | error e => simp [GatewayNetwork.RenderScw, hc, hw] at h
      | ok u =>
          cases hni : (getAllNodesIPs cloud ((expected.gateway.map Gateway.tags).getD [])).2 with
          | error e => simp [GatewayNetwork.RenderScw, hc, hw, hni] at h
          | ok ips =>
              cases hpat : (createPATRules cloud (expected.zone.getD "")
                  ((expected.gateway.bind Gateway.id).getD "") ips).2 with
              | error e =>
                  simp [GatewayNetwork.RenderScw, hc, hw, hni, hpat, Except.map] at h
              | ok v =>
                  simp only [GatewayNetwork.RenderScw, hc, hw, hni, hpat,
                    Except.map] at h ⊢
                  refine ⟨created, rfl, by simp_all, ?_⟩
                  exact ⟨_, rfl⟩

theorem gwnRenderWaitFail (cloud : GwnCloud) (expected : GatewayNetwork)
    (changes : Option GatewayNetwork) (created : CreatedGatewayNetwork) (e : String)
    (hc : cloud.CreateGatewayNetwork (gwnCreateRequest expected) = Except.ok created)
    (hw : cloud.WaitForGatewayNetwork created.id (expected.zone.getD "") =
      Except.error e) :
    (GatewayNetwork.RenderScw cloud none expected changes).2 =
      Except.error ("waiting for gateway: " ++ e) := by
  simp [GatewayNetwork.RenderScw, hc, hw]

theorem lbRenderOkInv (cloud : LbCloud) (expected e' : LoadBalancer)
    (changes : Option LoadBalancer)
    (h : (LoadBalancer.RenderScw cloud none expected changes).2 = Except.ok e') :
    ∃ created, cloud.CreateLB (lbCreateRequest expected) = Except.ok created ∧
      e' = { expected with
        id := some created.id
        lbAddresses := created.ip.map (fun ip => ip.ipAddress) } ∧
      (LoadBalancer.RenderScw cloud none expected changes).1 =
        [ApiEvent.createLB, ApiEvent.waitForLb created.id,
         ApiEvent.attachPrivateNetwork created.id, ApiEvent.waitForLb created.id] := by
  cases hc : cloud.CreateLB (lbCreateRequest expected) with
  | error e => simp [LoadBalancer.RenderScw, hc] at h
  | ok created =>
      cases hw : cloud.WaitForLb created.id (expected.zone.getD "") with
      | error e => simp [LoadBalancer.RenderScw, hc, hw] at h
      | ok u =>
          cases hatt : cloud.AttachPrivateNetwork (expected.zone.getD "") created.id
              ((expected.privateNetwork.bind PrivateNetwork.id).getD "") with
          | error e => simp [LoadBalancer.RenderScw, hc, hw, hatt] at h
          | ok v =>
              simp only [LoadBalancer.RenderScw, hc, hw, hatt] at h ⊢
              exact ⟨created, rfl, by simp_all, rfl⟩

theorem lbRenderWaitFail (cloud : LbCloud) (expected : LoadBalancer)
    (changes : Option LoadBalancer) (created : CreatedLb) (e : String)
    (hc : cloud.CreateLB (lbCreateRequest expected) = Except.ok created)
    (hw : cloud.WaitForLb created.id (expected.zone.getD "") = Except.error e) :
    (LoadBalancer.RenderScw cloud none expected changes).2 =
      Except.error ("waiting for load-balancer " ++ created.id ++ ": " ++ e) := by
  simp [LoadBalancer.RenderScw, hc, hw]

/-- Claim C6: rendering against the live-API target with `actual == nil`, a
successful RenderScw has created the resource and set the task's ID on
`expected` to the ID the cloud API reported for the created resource
(Gateway, GatewayNetwork and LoadBalancer alike). -/
theorem RenderScw_creation_sets_expected_id :
    (∀ (cloud : GatewayCloud) (expected e' : Gateway) (changes : Option Gateway),
        (Gateway.RenderScw cloud none expected changes).2 = Except.ok e' →
        ∃ created, cloud.CreateGateway (gatewayCreateRequest expected) =
            Except.ok created ∧ e'.id = some created.id) ∧
    (∀ (cloud : GwnCloud) (expected e' : GatewayNetwork)
        (changes : Option GatewayNetwork),
        (GatewayNetwork.RenderScw cloud none expected changes).2 = Except.ok e' →
        ∃ created, cloud.CreateGatewayNetwork (gwnCreateRequest expected) =
            Except.ok created ∧ e'.id = some created.id) ∧
    (∀ (cloud : LbCloud) (expected e' : LoadBalancer)
        (changes : Option LoadBalancer),
        (LoadBalancer.RenderScw cloud none expected changes).2 = Except.ok e' →
        ∃ created, cloud.CreateLB (lbCreateRequest expected) =
            Except.ok created ∧ e'.id = some created.id) := by
  refine ⟨?_, ?_, ?_⟩
  · intro cloud expected e' changes h
    obtain ⟨created, hc, he, -⟩ := gatewayRenderOkInv cloud expected e' changes h
    exact ⟨created, hc, by rw [he]⟩
  · intro cloud expected e' changes h
    obtain ⟨created, hc, he, -⟩ := gwnRenderOkInv cloud expected e' changes h
    exact ⟨created, hc, by rw [he]⟩
  · intro cloud expected e' changes h
    obtain ⟨created, hc, he, -⟩ := lbRenderOkInv cloud expected e' changes h
    exact ⟨created, hc, by rw [he]⟩

/-- Claim C8: a live-API render that issues a mutating create/attach call
never returns success without having invoked the wait-for-stable-state
operation on the created resource — on success the Gateway trace is create
then wait, the GatewayNetwork trace starts with create then wait, and the
LoadBalancer trace is create, wait, attach, wait — and a failing wait
surfaces as the render's error. -/
theorem RenderScw_waits_before_success :
    (∀ (cloud : GatewayCloud) (expected e' : Gateway) (changes : Option Gateway),
        (Gateway.RenderScw cloud none expected changes).2 = Except.ok e' →
        ∃ created, cloud.CreateGateway (gatewayCreateRequest expected) =
            Except.ok created ∧
          (Gateway.RenderScw cloud none expected changes).1 =
            [ApiEvent.createGateway, ApiEvent.waitForGateway created.id]) ∧
    (∀ (cloud : GatewayCloud) (expected : Gateway) (changes : Option Gateway)
        (created : CreatedGateway) (e : String),
        cloud.CreateGateway (gatewayCreateRequest expected) = Except.ok created →
        cloud.WaitForGateway created.id (expected.zone.getD "") = Except.error e →
        (Gateway.RenderScw cloud none expected changes).2 =
          Except.error ("waiting for gateway: " ++ e)) ∧
    (∀ (cloud : GwnCloud) (expected e' : GatewayNetwork)
        (changes : Option GatewayNetwork),
        (GatewayNetwork.RenderScw cloud none expected changes).2 = Except.ok e' →
        ∃ created rest,
          cloud.CreateGatewayNetwork (gwnCreateRequest expected) =
            Except.ok created ∧
          (GatewayNetwork.RenderScw cloud none expected changes).1 =
            ApiEvent.createGatewayNetwork ::
              ApiEvent.waitForGatewayNetwork created.id :: rest) ∧
    (∀ (cloud : GwnCloud) (expected : GatewayNetwork)
        (changes : Option GatewayNetwork) (created : CreatedGatewayNetwork)
        (e : String),
        cloud.CreateGatewayNetwork (gwnCreateRequest expected) = Except.ok created →
        cloud.WaitForGatewayNetwork created.id (expected.zone.getD "") =
          Except.error e →
        (GatewayNetwork.RenderScw cloud none expected changes).2 =
          Except.error ("waiting for gateway: " ++ e)) ∧
    (∀ (cloud : LbCloud) (expected e' : LoadBalancer)
        (changes : Option LoadBalancer),
        (LoadBalancer.RenderScw cloud none expected changes).2 = Except.ok e' →
        ∃ created, cloud.CreateLB (lbCreateRequest expected) = Except.ok created ∧
          (LoadBalancer.RenderScw cloud none expected changes).1 =
            [ApiEvent.createLB, ApiEvent.waitForLb created.id,
             ApiEvent.attachPrivateNetwork created.id,
             ApiEvent.waitForLb created.id]) ∧
    (∀ (cloud : LbCloud) (expected : LoadBalancer)
        (changes : Option LoadBalancer) (created : CreatedLb) (e : String),
        cloud.CreateLB (lbCreateRequest expected) = Except.ok created →
        cloud.WaitForLb created.id (expected.zone.getD "") = Except.error e →
        (LoadBalancer.RenderScw cloud none expected changes).2 =
          Except.error ("waiting for load-balancer " ++ created.id ++ ": " ++ e)) := by
  refine ⟨?_, gatewayRenderWaitFail, ?_, gwnRenderWaitFail, ?_, lbRenderWaitFail⟩
  · intro cloud expected e' changes h
    obtain ⟨created, hc, -, ht⟩ := gatewayRenderOkInv cloud expected e' changes h
    exact ⟨created, hc, ht⟩
  · intro cloud expected e' changes h
    obtain ⟨created, hc, -, rest, ht⟩ := gwnRenderOkInv cloud expected e' changes h
    exact ⟨created, rest, hc, ht⟩
  · intro cloud expected e' changes h
    obtain ⟨created, hc, -, ht⟩ := lbRenderOkInv cloud expected e' changes h
    exact ⟨created, hc, ht⟩

/-! ## The DNS record changeset -/

theorem upsertScanRecordsFound (z : String) (rr : ResourceRecordSet)
    (d : String) (records : List DomainRecord) :
    (upsertScanRecords z rr d records).2 =
      records.any (fun record => upsertMatches z record rr) := by
  have haux : ∀ (recs : List DomainRecord) (st : List RecordChange × Bool),
      (recs.foldl
        (fun st record =>
          if upsertMatches z record rr then
            (st.1 ++ [RecordChange.set record.id
              [{ name := record.name, data := d, ttl := rr.ttl,
                 type := rr.type }]], true)
          else st)
        st).2 = (st.2 || recs.any (fun record => upsertMatches z record rr)) := by
    intro recs
    induction recs with
    | nil => intro st; simp
    | cons r rest ih =>
        intro st
        cases hm : upsertMatches z r rr
        · simp [List.foldl_cons, hm, ih]
        · simp [List.foldl_cons, hm, ih]
  simpa [upsertScanRecords] using haux records ([], false)

theorem upsertRrsetNoMatch (z : String) (records : List DomainRecord)
    (rr : ResourceRecordSet)
    (hnm : records.any (fun record => upsertMatches z record rr) = false) :
    ∀ st, (upsertRrset z records rr st).2 =
      st.2 ++ List.replicate rr.data.length rr := by
  have haux : ∀ (ds : List String) (st : List RecordChange × List ResourceRecordSet),
      (ds.foldl
        (fun st2 rrdata =>
          let scanned := upsertScanRecords z rr rrdata records
          (st2.1 ++ scanned.1,
           if scanned.2 then st2.2 else st2.2 ++ [rr]))
        st).2 = st.2 ++ List.replicate ds.length rr := by
    intro ds
    induction ds with
    | nil => intro st; simp
    | cons d rest ih =>
        intro st
        simp only [List.foldl_cons]
        rw [ih]
        rw [upsertScanRecordsFound z rr d records, hnm]
        simp [List.replicate_succ]
  intro st
  simpa [upsertRrset] using haux rr.data st

theorem upsertRrsetExtends (z : String) (records : List DomainRecord)
    (rr : ResourceRecordSet) :
    ∀ st, ∃ ext, (upsertRrset z records rr st).2 = st.2 ++ ext := by
  have haux : ∀ (ds : List String) (st : List RecordChange × List ResourceRecordSet),
      ∃ ext, (ds.foldl
        (fun st2 rrdata =>
          let scanned := upsertScanRecords z rr rrdata records
          (st2.1 ++ scanned.1,
           if scanned.2 then st2.2 else st2.2 ++ [rr]))
        st).2 = st.2 ++ ext := by
    intro ds
    induction ds with
    | nil => intro st; exact ⟨[], by simp⟩
    | cons d rest ih =>
        intro st
        simp only [List.foldl_cons]
        cases hf : (upsertScanRecords z rr d records).2
        · obtain ⟨e1, he1⟩ := ih (st.1 ++ (upsertScanRecords z rr d records).1,
            st.2 ++ [rr])
          refine ⟨[rr] ++ e1, ?_⟩
          simp only [hf] at he1 ⊢
          simp_all [List.append_assoc]
        · obtain ⟨e1, he1⟩ := ih (st.1 ++ (upsertScanRecords z rr d records).1, st.2)
          refine ⟨e1, ?_⟩
          simp only [hf] at he1 ⊢
          simp_all
  intro st
  obtain ⟨ext, hext⟩ := haux rr.data st
  exact ⟨ext, by simpa [upsertRrset] using hext⟩

theorem upsertPhaseExtends (z : String) (records : List DomainRecord) :
    ∀ (ups : List ResourceRecordSet) (st : List RecordChange × List ResourceRecordSet),
      ∃ ext, (upsertPhase z records ups st).2 = st.2 ++ ext := by
  intro ups
  induction ups with
  | nil => intro st; exact ⟨[], by simp [upsertPhase]⟩
  | cons u rest ih =>
      intro st
      obtain ⟨e1, he1⟩ := upsertRrsetExtends z records u st
      obtain ⟨e2, he2⟩ := ih (upsertRrset z records u st)
      exact ⟨e1 ++ e2, by simp [upsertPhase, he2, he1, List.append_assoc]⟩

theorem upsertPhaseReclassifies (z : String) (records : List DomainRecord)
    (rr : ResourceRecordSet)
    (hdata : rr.data ≠ [])
    (hnm : records.any (fun record => upsertMatches z record rr) = false) :
    ∀ (ups : List ResourceRecordSet) (st : List RecordChange × List ResourceRecordSet),
      rr ∈ ups → rr ∈ (upsertPhase z records ups st).2 := by
  intro ups
  induction ups with
  | nil => intro st h; cases h
  | cons u rest ih =>
      intro st hmem
      rcases List.mem_cons.mp hmem with heq | hmem2
      · obtain ⟨ext, hext⟩ := upsertPhaseExtends z records rest (upsertRrset z records u st)
        simp only [upsertPhase]
        rw [hext]
        subst heq
        rw [upsertRrsetNoMatch z records rr hnm st]
        have : rr ∈ List.replicate rr.data.length rr :=
          List.mem_replicate.mpr ⟨by simpa using hdata, rfl⟩
        simp [this]
      · simpa [upsertPhase] using ih (upsertRrset z records u st) hmem2

theorem buildAddChangesMem (z : String) (rr : ResourceRecordSet) :
    ∀ (adds : List ResourceRecordSet) (init : List RecordData),
      rr ∈ adds →
      ∃ recs, RecordChange.add recs ∈ buildAddChanges z adds init ∧
        ∀ d ∈ rr.data, addRecordOf z rr d ∈ recs := by
  intro adds
  induction adds with
  | nil => intro init h; cases h
  | cons a rest ih =>
      intro init hmem
      rcases List.mem_cons.mp hmem with heq | hmem2
      · subst heq
        refine ⟨init ++ addRecordsOf z rr, by simp [buildAddChanges], ?_⟩
        intro d hd
        have : addRecordOf z rr d ∈ addRecordsOf z rr :=
          List.mem_map.mpr ⟨d, hd, rfl⟩
        simp [this]
      · obtain ⟨recs, hin, hall⟩ := ih (init ++ addRecordsOf z a) hmem2
        exact ⟨recs, by simp [buildAddChanges, hin], hall⟩

/-- Claim C10: an empty changeset's Apply returns nil without issuing any
API call; a non-empty changeset issues exactly one UpdateDNSZoneRecords
call carrying all accumulated changes; and every upserted record-set datum
whose name-with-zone-suffix and type match no existing zone record is
reclassified as an addition, so the one request carries an Add change
holding that datum's record. -/
theorem Apply_empty_noop_single_call_reclassifies :
    (∀ (r : ResourceRecordChangeset) (listRecords : Except String (List DomainRecord)),
        r.IsEmpty = true → r.Apply listRecords = Except.ok []) ∧
    (∀ (r : ResourceRecordChangeset) (records : List DomainRecord),
        r.IsEmpty = false →
        ∃ req, r.Apply (Except.ok records) = Except.ok [req]) ∧
    (∀ (r : ResourceRecordChangeset) (records : List DomainRecord)
        (rrset : ResourceRecordSet) (d : String),
        rrset ∈ r.upserts → d ∈ rrset.data →
        (∀ record ∈ records, upsertMatches r.zoneName record rrset = false) →
        ∃ req recs,
          r.Apply (Except.ok records) = Except.ok [req] ∧
          RecordChange.add recs ∈ req.changes ∧
          addRecordOf r.zoneName rrset d ∈ recs) := by
  refine ⟨?_, ?_, ?_⟩
  · intro r lr h
    simp [ResourceRecordChangeset.Apply, h]
  · intro r records h
    simp only [ResourceRecordChangeset.Apply, h, Bool.false_eq_true, if_false]
    exact ⟨_, rfl⟩
  · intro r records rrset d hup hd hnm
    have hany : records.any (fun record => upsertMatches r.zoneName record rrset) = false := by
      simp only [List.any_eq_false]
      intro record hrec
      simp [hnm record hrec]
    have hne : r.IsEmpty = false := by
      cases hu : r.upserts with
      | nil => rw [hu] at hup; cases hup
      | cons a l =>
          simp [ResourceRecordChangeset.IsEmpty, hu]
    have hup2 : rrset ∈ (upsertPhase r.zoneName records r.upserts ([], r.additions)).2 :=
      upsertPhaseReclassifies r.zoneName records rrset
        (List.ne_nil_of_mem hd) hany r.upserts ([], r.additions) hup
    obtain ⟨recs, hin, hall⟩ := buildAddChangesMem r.zoneName rrset
      (upsertPhase r.zoneName records r.upserts ([], r.additions)).2 [] hup2
    refine ⟨{ dnsZone := r.zoneName
              changes :=
                (upsertPhase r.zoneName records r.upserts ([], r.additions)).1 ++
                  buildAddChanges r.zoneName
                    (upsertPhase r.zoneName records r.upserts ([], r.additions)).2 [] ++
                  buildDeleteChanges r.zoneName records r.removals },
           recs, ?_, ?_, hall d hd⟩
    · simp only [ResourceRecordChangeset.Apply, hne, Bool.false_eq_true, if_false]
    · simp [hin]

/-! ## Concrete evaluations

Closed checks that the success paths of the functions above are reachable,
so the conditional statements over them are not vacuous. -/

theorem gatewayRenderScwEval :
    (Gateway.RenderScw gatewayCloudEx none gatewayEx none).2 =
      Except.ok { gatewayEx with id := some "gw-id-1" } ∧
    (Gateway.RenderScw gatewayCloudEx none gatewayEx none).1 =
      [ApiEvent.createGateway, ApiEvent.waitForGateway "gw-id-1"] := by
  exact ⟨rfl, rfl⟩

theorem gatewayRenderScwWaitFailEval :
    (Gateway.RenderScw gatewayCloudWaitFail none gatewayEx none).2 =
      Except.error "waiting for gateway: timeout" := by
  exact rfl

theorem lbRenderScwEval :
    (LoadBalancer.RenderScw lbCloudEx none lbEx none).2 =
      Except.ok { lbEx with id := some "lb-id-1", lbAddresses := ["1.2.3.4"] } ∧
    (LoadBalancer.RenderScw lbCloudEx none lbEx none).1 =
      [ApiEvent.createLB, ApiEvent.waitForLb "lb-id-1",
       ApiEvent.attachPrivateNetwork "lb-id-1", ApiEvent.waitForLb "lb-id-1"] := by
  exact ⟨rfl, rfl⟩

theorem gwnRenderScwEval :
    (GatewayNetwork.RenderScw gwnCloudEx none gwnEx none).2 =
      Except.ok { gwnEx with id := some "gwn-id-1" } := by
  exact rfl

theorem applyEval :
    ({ zoneName := "example.com", additions := [],
       removals := [],
       upserts := [{ name := "api.cluster", data := ["1.2.3.4"], ttl := 60,
                     type := "A" }] } :
        ResourceRecordChangeset).Apply (Except.ok []) =
      Except.ok [{ dnsZone := "example.com",
                   changes := [RecordChange.add
                     [{ name := "api.cluster", data := "1.2.3.4", ttl := 60,
                        type := "A" }]] }] := by
  rfl
